import Mathlib

/-!
Verification of the credential-lifecycle and resource-client module
(`src/utils/google_drive.py`, class `GoogleDriveManager`) against its
natural-language specification.

The module is embedded shallowly:

* the persisted token record (a pickle blob at `token_path`) becomes an
  `Option Record`, where `Record` is either a faithfully pickled
  `Option Credential` or an unparsable blob (`corrupt`);
* the mutable object state (`self.creds`, `self.service`, the token file)
  becomes an explicit `ManagerState` threaded through every operation;
* Python exceptions become `Except PyError`; operations whose bodies are
  wrapped in `try/except` return plain values, mirroring the swallowed
  exception;
* the network is an explicit oracle parameter: `RefreshOutcome` for the
  token-refresh exchange and `ExchangeOutcome` for the authorization-code
  exchange; the remote requests an operation would issue are returned as
  explicit request values (`UploadRequest`, `FolderRequest`, `ListRequest`)
  so that theorems can speak about which credential a network call uses and
  which bytes it transfers;
* wall-clock time is an explicit `now : Int` parameter; the google-auth
  library treats a credential as `expired` when `expiry <= now` and as
  `valid` when a token is present and it is not expired.
-/

/-- Credential as issued by the authorization server: access token, optional
refresh token, expiry timestamp and granted scopes. -/
structure Credential where
  access_token : String
  refresh_token : Option String
  expiry : Int
  scopes : List String
deriving Repr, DecidableEq

/-- Credential.expired mirrors `google.oauth2.credentials.Credentials.expired`:
the credential is expired when its expiry has passed. -/
def Credential.expired (c : Credential) (now : Int) : Bool :=
  decide (c.expiry ≤ now)

/-- Credential.valid mirrors `Credentials.valid`: a token is present (always
true for a constructed `Credential`) and the credential is not expired. -/
def Credential.valid (c : Credential) (now : Int) : Bool :=
  !(c.expired now)

/-- Contents of the token file: either a faithfully pickled value (the code
pickles `self.creds`, an optional credential) or an unparsable blob. -/
inductive Record where
  | pickled (c : Option Credential)
  | corrupt
deriving Repr, DecidableEq

/-- Python exceptions that the embedded operations can raise. -/
inductive PyError where
  | unpicklingError
  | valueError (msg : String)
deriving Repr, DecidableEq

/-- Error raised by `_get_service` when no validated credential is available;
the spec calls this condition `NotAuthenticatedError`. -/
def notAuthenticatedError : PyError :=
  PyError.valueError ("Not authenticated. Please authenticate first.")

/-- pickle.load on the token file: a faithfully pickled value deserializes to
itself; an unparsable blob raises. -/
def pickleLoad : Record → Except PyError (Option Credential)
  | Record.pickled c => Except.ok c
  | Record.corrupt => Except.error PyError.unpicklingError

/-- Mutable state of a `GoogleDriveManager` instance plus the file system it
touches: `token_file` is the contents at `token_path` (`none` = file missing),
`creds` is `self.creds`, and `service` records the credential the cached
Drive service handle was built from (`none` = `self.service is None`).
The two configured paths are constants and are not modeled. -/
structure ManagerState where
  token_file : Option Record
  creds : Option Credential
  service : Option Credential
deriving Repr, DecidableEq

/-- is_authenticated (lines 38-40): `self.creds is not None and self.creds.valid`. -/
def is_authenticated (now : Int) (s : ManagerState) : Bool :=
  match s.creds with
  | some c => c.valid now
  | none => false

/-- save_credentials embeds `_save_credentials` (lines 59-62): open the token
path for writing and pickle `self.creds` into it. -/
def save_credentials (s : ManagerState) : ManagerState :=
  { s with token_file := some (Record.pickled s.creds) }

/-- Intermediate token-file contents during `_save_credentials`, step by step:
`open(self.token_path, 'wb')` first truncates the file in place (an empty or
half-written pickle is unparsable, hence `corrupt`), and only then does
`pickle.dump` write the full record. -/
def save_credentials_states (s : ManagerState) : List (Option Record) :=
  [some Record.corrupt, some (Record.pickled s.creds)]

/-- Outcome of the token-refresh network exchange `self.creds.refresh(Request())`:
success carries the new access token, new expiry and, when the server issues
one, a new refresh token; the two failure constructors distinguish a transient
network failure from a permanent rejection (e.g. revoked token) — the code
raises an exception in both cases. -/
inductive RefreshOutcome where
  | success (tok : String) (exp : Int) (newRefresh : Option String)
  | networkFailure
  | permanentRejection
deriving Repr, DecidableEq

/-- load_phase embeds lines 44-46 of `load_credentials`: if the token file
exists, unpickle it into `self.creds` (propagating any unpickling exception);
otherwise leave `self.creds` unchanged. -/
def load_phase (s : ManagerState) : Except PyError ManagerState :=
  match s.token_file with
  | some r => (pickleLoad r).map (fun cc => { s with creds := cc })
  | none => Except.ok s

/-- refresh_phase embeds lines 48-57 of `load_credentials`: if a credential is
loaded, expired, and carries a refresh token, attempt the refresh; on success
replace token/expiry (and refresh token when a new one is issued) and persist;
on any exception print and set `self.creds = None`. Finally return
`self.is_authenticated()`. -/
def refresh_phase (now : Int) (o : RefreshOutcome) (s : ManagerState) :
    ManagerState × Bool :=
  match s.creds with
  | some c =>
      if c.expired now && c.refresh_token.isSome then
        match o with
        | RefreshOutcome.success tok exp nr =>
            let c2 : Credential :=
              { c with access_token := tok, expiry := exp,
                       refresh_token := match nr with
                                        | some r => some r
                                        | none => c.refresh_token }
            let s2 := save_credentials { s with creds := some c2 }
            (s2, is_authenticated now s2)
        | RefreshOutcome.networkFailure =>
            let s2 : ManagerState := { s with creds := none }
            (s2, is_authenticated now s2)
        | RefreshOutcome.permanentRejection =>
            let s2 : ManagerState := { s with creds := none }
            (s2, is_authenticated now s2)
      else (s, is_authenticated now s)
  | none => (s, is_authenticated now s)

/-- load_credentials (lines 42-57): load the pickled credential if the token
file exists, then refresh if expired, then report authentication state.
The `try/except` in the source wraps only the refresh, so an unpickling
exception from the load phase propagates to the caller. -/
def load_credentials (now : Int) (o : RefreshOutcome) (s : ManagerState) :
    Except PyError (ManagerState × Bool) :=
  (load_phase s).map (refresh_phase now o)

/-- Outcome of the authorization-code exchange `flow.fetch_token(code=code)`:
success yields the new credential; failure is any transport or protocol
exception raised inside the `try` block. -/
inductive ExchangeOutcome where
  | success (c : Credential)
  | failure
deriving Repr, DecidableEq

/-- authenticate_from_code (lines 94-120): on a successful exchange store the
new credential, persist it and return True; on any exception print the error
and return False, leaving both the in-memory state and the token file as they
were. -/
def authenticate_from_code (o : ExchangeOutcome) (s : ManagerState) :
    ManagerState × Bool :=
  match o with
  | ExchangeOutcome.success c => (save_credentials { s with creds := some c }, true)
  | ExchangeOutcome.failure => (s, false)

/-- revoke_authentication (lines 122-127): remove the token file if it exists
(no error when it does not), clear `self.creds` and `self.service`. -/
def revoke_authentication (_s : ManagerState) : ManagerState :=
  { token_file := none, creds := none, service := none }

/-- get_service embeds `_get_service` (lines 129-135): if a service handle is
cached, return it without any further check; otherwise require
`is_authenticated()` (raising the not-authenticated `ValueError` when it
fails) and build a handle from the current credential. The returned
`Credential` is the one the handle embeds and will sign requests with. -/
def get_service (now : Int) (s : ManagerState) :
    Except PyError (ManagerState × Credential) :=
  match s.service with
  | some svc => Except.ok (s, svc)
  | none =>
      match s.creds with
      | some c =>
          if c.valid now then Except.ok ({ s with service := some c }, c)
          else Except.error notAuthenticatedError
      | none => Except.error notAuthenticatedError

/-- Content stream passed to `upload_file`: its bytes, the current read
position, and whether the object has a `seek` method. -/
structure ContentStream where
  data : List Nat
  pos : Nat
  seekable : Bool
deriving Repr, DecidableEq

/-- Remote file-creation request issued by `upload_file`: the credential the
service handle signs with, the file metadata, the mimetype handed to
`MediaIoBaseUpload`, and the bytes the media upload will transfer (the stream
contents from its position at transfer start). -/
structure UploadRequest where
  cred : Credential
  name : String
  parents : List String
  mimetype : String
  content : List Nat
deriving Repr, DecidableEq

/-- upload_file (lines 137-183). The whole body is wrapped in `try/except`:
when `_get_service` raises, no network request is issued and the error dict is
returned (modeled as `none`). Otherwise, a stream that supports `seek` is
rewound to 0 and the create request is issued (modeled as `some` request).
A stream without `seek` skips the rewind at lines 158-159, but the
`MediaIoBaseUpload` constructor at line 161 requires a seekable stream (it
sizes the payload by seeking to the end) and raises `AttributeError`; the
exception is caught by the surrounding `except`, the failure dict is returned,
and no request is issued (`none`) — the service handle cached by
`_get_service` inside the `try` persists in the state. Python default
arguments are mirrored: `mimetype='application/pdf'`, `folder_id=None`. -/
def upload_file (now : Int) (s : ManagerState) (file_content : ContentStream)
    (filename : String) (mimetype : String := "application/pdf")
    (folder_id : Option String := none) :
    ManagerState × Option UploadRequest :=
  match get_service now s with
  | Except.error _ => (s, none)
  | Except.ok (s2, svc) =>
      if file_content.seekable then
        let fc := { file_content with pos := 0 }
        let req : UploadRequest :=
          { cred := svc, name := filename,
            parents := match folder_id with
                       | some fid => [fid]
                       | none => [],
            mimetype := mimetype,
            content := fc.data.drop fc.pos }
        (s2, some req)
      else (s2, none)

/-- Remote folder-creation request issued by `create_folder`. -/
structure FolderRequest where
  cred : Credential
  name : String
  mimeType : String
  parents : List String
deriving Repr, DecidableEq

/-- create_folder (lines 185-215): on `_get_service` failure the exception is
caught, logged and `None` returned with no network request (modeled `none`);
otherwise the folder-creation request is issued with the Drive folder
mimetype. -/
def create_folder (now : Int) (s : ManagerState) (folder_name : String)
    (parent_folder_id : Option String := none) :
    ManagerState × Option FolderRequest :=
  match get_service now s with
  | Except.error _ => (s, none)
  | Except.ok (s2, svc) =>
      let req : FolderRequest :=
        { cred := svc, name := folder_name,
          mimeType := "application/vnd.google-apps.folder",
          parents := match parent_folder_id with
                     | some fid => [fid]
                     | none => [] }
      (s2, some req)

/-- Remote listing request issued by `list_files`: the signing credential, the
page size, and the parent-containment filter (the code renders
`filterParent = some fid` as the query string binding `fid` in `parents`,
and `none` as the empty query). -/
structure ListRequest where
  cred : Credential
  pageSize : Nat
  filterParent : Option String
deriving Repr, DecidableEq

/-- list_files (lines 217-244): on `_get_service` failure the exception is
caught, logged and an empty list returned with no network request (modeled
`none`); otherwise the listing request is issued with the optional parent
filter. -/
def list_files (now : Int) (s : ManagerState) (page_size : Nat := 10)
    (folder_id : Option String := none) :
    ManagerState × Option ListRequest :=
  match get_service now s with
  | Except.error _ => (s, none)
  | Except.ok (s2, svc) =>
      (s2, some { cred := svc, pageSize := page_size, filterParent := folder_id })

/-! ## Concrete values used by counterexamples and witnesses -/

/-- Sample scope string. -/
def scopeFile : String := "https://www.googleapis.com/auth/drive.file"

/-- Sample access token. -/
def tokA : String := "access-token-A"

/-- Sample refresh token. -/
def rtokA : String := "refresh-token-A"

/-- Sample filename. -/
def fnameEx : String := "report.pdf"

/-- The default mimetype literal used by `upload_file`. -/
def mimePdf : String := "application/pdf"

/-- The generic binary mimetype the spec describes as the default. -/
def mimeOctet : String := "application/octet-stream"

/-- Sample credential, expiring at time 100: valid at `now = 0`, expired at
`now = 200`. -/
def sampleCred : Credential :=
  { access_token := tokA, refresh_token := some rtokA, expiry := 100,
    scopes := [scopeFile] }

/-- State with a valid in-memory credential and no cached service handle. -/
def freshState : ManagerState :=
  { token_file := none, creds := some sampleCred, service := none }

/-- State whose cached service handle was built from `sampleCred` while it was
still valid; at `now = 200` that credential has expired. -/
def staleState : ManagerState :=
  { token_file := some (Record.pickled (some sampleCred)),
    creds := some sampleCred, service := some sampleCred }

/-- State whose token file holds an unparsable blob. -/
def corruptState : ManagerState :=
  { token_file := some Record.corrupt, creds := none, service := none }

/-- State whose token file holds a pickled `sampleCred` and whose in-memory
state is empty. -/
def savedState : ManagerState :=
  { token_file := some (Record.pickled (some sampleCred)), creds := none,
    service := none }

/-- Seekable stream that has already been read to position 1. -/
def streamA : ContentStream := { data := [1, 2, 3], pos := 1, seekable := true }

/-- Stream without a `seek` method, already read to position 2. -/
def seeklessStream : ContentStream :=
  { data := [10, 20, 30], pos := 2, seekable := false }

/-- The upload request `upload_file` issues from `freshState` for `streamA`
with default arguments at `now = 0`. -/
def sampleReq : UploadRequest :=
  { cred := sampleCred, name := fnameEx, parents := [], mimetype := mimePdf,
    content := [1, 2, 3] }

/-! ## Helper lemmas -/

/-- When no service handle is cached, `_get_service` succeeds only by
validating the stored credential: the credential the new handle embeds is the
stored one and it is valid now. -/
lemma get_service_fresh (now : Int) (s : ManagerState) (s2 : ManagerState)
    (c : Credential) (hsvc : s.service = none)
    (h : get_service now s = Except.ok (s2, c)) :
    c.valid now = true ∧ s.creds = some c := by
  obtain ⟨tf, cr, sv⟩ := s
  simp only at hsvc
  subst hsvc
  cases cr with
  | none => simp [get_service] at h
  | some c0 =>
      simp only [get_service] at h
      by_cases hv : c0.valid now = true
      · rw [if_pos hv] at h
        obtain ⟨h1, h2⟩ := Prod.mk.injEq .. ▸ (Except.ok.injEq .. ▸ h)
        subst h2
        exact ⟨hv, rfl⟩
      · rw [if_neg hv] at h
        exact absurd h (by simp)

/-! ## Claim theorems -/

/-- C2, counterexample: the claim says `load` never raises to the caller, but
on an unparsable token record `load_credentials` propagates the unpickling
exception: the `try/except` in the source wraps only the refresh step, not
`pickle.load`. -/
theorem C2_counterexample :
    load_credentials 0 RefreshOutcome.networkFailure corruptState =
      Except.error PyError.unpicklingError := rfl

/-- C2, amended: `load` on a missing record (with no stale in-memory
credential) returns absent without raising, but on an unparsable record the
unpickling exception propagates to the caller instead of being mapped to
absent. -/
theorem C2_amended_theorem (now : Int) (o : RefreshOutcome)
    (sv cr : Option Credential) :
    (load_credentials now o { token_file := none, creds := none, service := sv }
       = Except.ok ({ token_file := none, creds := none, service := sv }, false)) ∧
    (load_credentials now o
       { token_file := some Record.corrupt, creds := cr, service := sv }
       = Except.error PyError.unpicklingError) := by
  constructor
  · cases o <;> rfl
  · rfl

/-- C3, counterexample: at `now = 200` the stored credential (expiry 100,
refresh token present) is expired; on a transient network failure of the
refresh exchange, `load_credentials` does not fail with any error — it
returns normally with `False` — and the in-memory credential is discarded
(set to `None`) rather than left unmutated. -/
theorem C3_counterexample :
    staleState.creds = some sampleCred ∧
    load_credentials 200 RefreshOutcome.networkFailure staleState =
      Except.ok ({ staleState with creds := none }, false) ∧
    ({ staleState with creds := none } : ManagerState).creds ≠ some sampleCred := by
  refine ⟨rfl, rfl, by simp⟩

/-- C3, amended: when the stored credential is expired and has a refresh
token, a failed refresh of either kind (transient network failure or
permanent rejection) is treated identically: the persisted record is left
unchanged, the in-memory credential is discarded (set to absent), and
`load_credentials` returns `False` normally instead of raising a
`TransientAuthError` or `AuthenticationError`. -/
theorem C3_amended_theorem (now : Int) (s : ManagerState) (c : Credential)
    (hf : s.token_file = some (Record.pickled (some c)))
    (hexp : c.expired now = true) (hrt : c.refresh_token.isSome = true)
    (o : RefreshOutcome)
    (ho : o = RefreshOutcome.networkFailure ∨ o = RefreshOutcome.permanentRejection) :
    load_credentials now o s = Except.ok ({ s with creds := none }, false) := by
  simp only [load_credentials, load_phase, hf, pickleLoad, Except.map]
  have hcond : (c.expired now && c.refresh_token.isSome) = true := by
    rw [hexp, hrt]; rfl
  rcases ho with ho | ho <;>
    · subst ho
      simp [refresh_phase, hcond, is_authenticated]

/-- C3, witness for the amended theorem at a concrete input: `staleState`
stores the expired `sampleCred` at `now = 200`; the failed refresh clears
the in-memory credential and returns `False`. -/
theorem C3_amended_witness :
    load_credentials 200 RefreshOutcome.networkFailure staleState =
      Except.ok ({ staleState with creds := none }, false) :=
  C3_amended_theorem 200 staleState sampleCred rfl rfl rfl
    RefreshOutcome.networkFailure (Or.inl rfl)

/-- C4, counterexample: the claim says a failed code exchange fails with
`AuthenticationError` carrying the cause; in the code the exception is caught,
printed, and `False` is returned — the operation completes normally at this
concrete input (the no-partial-persist half of the claim does hold: the state
is returned unchanged). -/
theorem C4_counterexample :
    authenticate_from_code ExchangeOutcome.failure savedState =
      (savedState, false) := rfl

/-- C4, amended: on any transport or protocol error during the code exchange,
`authenticate_from_code` swallows the exception and returns `False` (rather
than failing with `AuthenticationError`), and neither the in-memory credential
nor the persisted record is changed: no partial credential is persisted. -/
theorem C4_amended_theorem (s : ManagerState) :
    authenticate_from_code ExchangeOutcome.failure s = (s, false) := rfl

/-- C5, counterexample: the claim says the default mimetype is a generic
binary type; the code's default is `application/pdf`, which is not the
generic binary mimetype. -/
theorem C5_counterexample :
    ((upload_file 0 freshState streamA fnameEx).2.map fun r => r.mimetype) =
      some mimePdf ∧ mimePdf ≠ mimeOctet := by
  refine ⟨rfl, by decide⟩

/-- C5, amended: for every upload call where the caller does not specify a
mimetype, the issued request uses the default `application/pdf`. -/
theorem C5_amended_theorem (now : Int) (s : ManagerState) (fc : ContentStream)
    (fn : String) (r : UploadRequest)
    (h : (upload_file now s fc fn).2 = some r) : r.mimetype = mimePdf := by
  unfold upload_file at h
  cases hg : get_service now s with
  | error e => rw [hg] at h; exact absurd h (by simp)
  | ok p =>
      rw [hg] at h
      obtain ⟨s2, svc⟩ := p
      dsimp only at h
      by_cases hs : fc.seekable = true
      · rw [if_pos hs] at h
        simp only [Option.some.injEq] at h
        subst h
        rfl
      · rw [if_neg hs] at h
        exact absurd h (by simp)

/-- C5, witness for the amended theorem: uploading from `freshState` with the
default mimetype issues `sampleReq`, whose mimetype is `application/pdf`. -/
theorem C5_amended_witness : sampleReq.mimetype = mimePdf :=
  C5_amended_theorem 0 freshState streamA fnameEx sampleReq rfl

/-- C1, counterexample: at `now = 200` the credential embedded in
`staleState`'s cached service handle has expired, yet `upload_file` issues its
network request signed with that stale credential: `_get_service` returns the
cached handle without re-validating, so the operation does not obtain a
validated credential before the network call. -/
theorem C1_counterexample :
    sampleCred.valid 200 = false ∧
    ((upload_file 200 staleState streamA fnameEx).2.map fun r => r.cred) =
      some sampleCred := ⟨rfl, rfl⟩

/-- C1, amended: validation happens only when no service handle is cached:
in that case every operation (upload, create_folder, list_files) that reaches
the network does so with the stored credential validated as non-absent and
non-expired. When a handle is already cached, `_get_service` returns it with
no check, so a request may be issued under a credential that has since
expired. -/
theorem C1_amended_theorem (now : Int) (s : ManagerState) (fc : ContentStream)
    (fn mt : String) (fid : Option String) (ps : Nat)
    (hsvc : s.service = none) :
    (∀ r, (upload_file now s fc fn mt fid).2 = some r → r.cred.valid now = true) ∧
    (∀ r, (create_folder now s fn fid).2 = some r → r.cred.valid now = true) ∧
    (∀ r, (list_files now s ps fid).2 = some r → r.cred.valid now = true) := by
  refine ⟨?_, ?_, ?_⟩ <;> intro r h
  · unfold upload_file at h
    cases hg : get_service now s with
    | error e => rw [hg] at h; exact absurd h (by simp)
    | ok p =>
        rw [hg] at h
        obtain ⟨s2, svc⟩ := p
        dsimp only at h
        by_cases hs : fc.seekable = true
        · rw [if_pos hs] at h
          simp only [Option.some.injEq] at h
          subst h
          exact (get_service_fresh now s s2 svc hsvc hg).1
        · rw [if_neg hs] at h
          exact absurd h (by simp)
  · unfold create_folder at h
    cases hg : get_service now s with
    | error e => rw [hg] at h; exact absurd h (by simp)
    | ok p =>
        rw [hg] at h
        obtain ⟨s2, svc⟩ := p
        simp only [Option.some.injEq] at h
        subst h
        exact (get_service_fresh now s s2 svc hsvc hg).1
  · unfold list_files at h
    cases hg : get_service now s with
    | error e => rw [hg] at h; exact absurd h (by simp)
    | ok p =>
        rw [hg] at h
        obtain ⟨s2, svc⟩ := p
        simp only [Option.some.injEq] at h
        subst h
        exact (get_service_fresh now s s2 svc hsvc hg).1

/-- C1, witness for the amended theorem: from `freshState` (no cached handle,
valid stored credential) the upload request is issued with a credential valid
at `now = 0`. -/
theorem C1_amended_witness : sampleReq.cred.valid 0 = true :=
  (C1_amended_theorem 0 freshState streamA fnameEx mimePdf none 10 rfl).1
    sampleReq rfl

/-- C6, counterexample: `_save_credentials` opens the configured token path
directly for writing — there is no temporary location and no rename. The
truncating open leaves an unparsable (corrupt) record at the configured path
as an intermediate state, which is neither the old contents nor the final
contents, so an interrupted save can leave a corrupt record at the path. -/
theorem C6_counterexample :
    save_credentials_states freshState =
      [some Record.corrupt, some (Record.pickled (some sampleCred))] ∧
    (some Record.corrupt : Option Record) ≠ freshState.token_file ∧
    (some Record.corrupt : Option Record) ≠
      some (Record.pickled (some sampleCred)) := by
  refine ⟨rfl, by simp [freshState], by simp⟩

/-- C6, amended: `_save_credentials` writes directly to the configured path by
truncating then writing, so an interruption between the two steps leaves an
unparsable record at the path; a subsequent `load` raises on such a record
(it does not mis-accept it). A completed save leaves the pickled credential. -/
theorem C6_amended_theorem (s : ManagerState) :
    some Record.corrupt ∈ save_credentials_states s ∧
    (save_credentials_states s).getLast? =
      some (some (Record.pickled s.creds)) ∧
    (save_credentials s).token_file = some (Record.pickled s.creds) ∧
    pickleLoad Record.corrupt = Except.error PyError.unpicklingError := by
  refine ⟨?_, rfl, rfl, rfl⟩
  simp [save_credentials_states]

/-- C7: round-trip of the credential store. Saving a credential `c` and then
performing the load step yields exactly `c`; and saving right after loading a
parsable record leaves the store contents unchanged. -/
theorem C7_theorem (s : ManagerState) (c : Credential) (st st2 : ManagerState)
    (cc : Option Credential)
    (hf : st.token_file = some (Record.pickled cc))
    (hl : load_phase st = Except.ok st2) :
    ((load_phase (save_credentials { s with creds := some c })).map
        fun t => t.creds) = Except.ok (some c) ∧
    (save_credentials st2).token_file = st.token_file := by
  constructor
  · rfl
  · simp only [load_phase, hf, pickleLoad, Except.map, Except.ok.injEq] at hl
    subst hl
    simp [save_credentials, hf]

/-- C7, witness: saving `sampleCred` then loading yields `sampleCred`, and
re-saving what was just loaded from `savedState` leaves the token file as it
was. -/
theorem C7_witness :
    ((load_phase (save_credentials { savedState with creds := some sampleCred })).map
        fun t => t.creds) = Except.ok (some sampleCred) ∧
    (save_credentials { savedState with creds := some sampleCred }).token_file =
      savedState.token_file :=
  C7_theorem savedState sampleCred savedState
    { savedState with creds := some sampleCred } (some sampleCred) rfl rfl

/-- C8: `revoke_authentication` is idempotent and total (revoking twice, or
with nothing stored, is not an error), it removes the persisted record and
clears the in-memory credential and service handle; afterwards the
authentication gate fails: `_get_service` raises the not-authenticated error
and `load_credentials` reports not authenticated — even when a valid
credential existed immediately before. -/
theorem C8_theorem (s : ManagerState) (now : Int) (o : RefreshOutcome) :
    revoke_authentication (revoke_authentication s) = revoke_authentication s ∧
    (revoke_authentication s).token_file = none ∧
    (revoke_authentication s).creds = none ∧
    (revoke_authentication s).service = none ∧
    get_service now (revoke_authentication s) =
      Except.error notAuthenticatedError ∧
    load_credentials now o (revoke_authentication s) =
      Except.ok (revoke_authentication s, false) ∧
    is_authenticated now (revoke_authentication s) = false :=
  ⟨rfl, rfl, rfl, rfl, rfl, rfl, rfl⟩

/-- C9: the uploaded bytes always start at offset 0: every upload call that
issues a transfer request transfers the full stream data from its start, even
when the stream was previously read. A seekable stream is rewound to its
start before the media upload is built; a stream without `seek` never reaches
the transfer at all (the media-upload construction raises inside the try and
no request is issued), so no transfer ever begins at a nonzero offset. -/
theorem C9_theorem (now : Int) (s : ManagerState) (fc : ContentStream)
    (fn mt : String) (fid : Option String) (r : UploadRequest)
    (h : (upload_file now s fc fn mt fid).2 = some r) :
    r.content = fc.data := by
  unfold upload_file at h
  cases hg : get_service now s with
  | error e => rw [hg] at h; exact absurd h (by simp)
  | ok p =>
      rw [hg] at h
      obtain ⟨s2, svc⟩ := p
      dsimp only at h
      by_cases hs : fc.seekable = true
      · rw [if_pos hs] at h
        simp only [Option.some.injEq] at h
        subst h
        simp
      · rw [if_neg hs] at h
        exact absurd h (by simp)

/-- C9, witness: uploading the seekable `streamA` (already read to position 1)
from `freshState` transfers the full `[1, 2, 3]` from offset 0. -/
theorem C9_witness : sampleReq.content = streamA.data :=
  C9_theorem 0 freshState streamA fnameEx mimePdf none sampleReq rfl

/-- C10, counterexample: the claim says an upload whose content object has no
seek operation proceeds with the transfer from the current position; in the
program the `MediaIoBaseUpload` constructor at line 161 requires a seekable
stream and raises `AttributeError` inside the try, so at this concrete input
`upload_file` returns the failure dict and issues no request transferring
nothing — while the identical stream with `seek` support does cause a request,
so request issuance also depends on seekability. -/
theorem C10_counterexample :
    (upload_file 0 freshState seeklessStream fnameEx).2 = none ∧
    ((upload_file 0 freshState { seeklessStream with seekable := true }
        fnameEx).2.map fun r => r.content) = some [10, 20, 30] := ⟨rfl, rfl⟩

/-- C10, amended: for every upload call whose content object has no seek
operation, the rewind at lines 158-159 is skipped, but the transfer does not
proceed: constructing the media upload raises inside the try, the exception
is caught, and `upload_file` returns the failure dict with no network request
issued. -/
theorem C10_amended_theorem (now : Int) (s : ManagerState) (fc : ContentStream)
    (fn mt : String) (fid : Option String) (hseek : fc.seekable = false) :
    (upload_file now s fc fn mt fid).2 = none := by
  cases hg : get_service now s with
  | error e =>
      unfold upload_file
      rw [hg]
  | ok p =>
      obtain ⟨s2, svc⟩ := p
      unfold upload_file
      rw [hg]
      dsimp only
      rw [if_neg (by simp [hseek])]

/-- C10, witness for the amended theorem: the seekless upload from
`freshState` issues no request. -/
theorem C10_amended_witness :
    (upload_file 0 freshState seeklessStream fnameEx mimePdf none).2 = none :=
  C10_amended_theorem 0 freshState seeklessStream fnameEx mimePdf none rfl
